import Mathlib

/-!
Verification development for `bake_light.py`, a Blender batch script that
clears the scene, loads a JSON settings file, imports a glTF mesh, adds a
light, exports the lit mesh, and optionally renders a debug preview.

The embedding is shallow: the Blender host API (`bpy`) is modelled by an
explicit scene state (list of objects, active object, render settings) and
a trace of host-operator invocations; the filesystem is a function from
paths to file states; Python floats that only ever hold integral literals
(light energy, locations) are modelled as `Int`.
-/

namespace BakeLight

/-- Python's `str.replace(pat, rep)` scan with explicit fuel so that the
recursion is structural: each step consumes at least one character, so any
fuel of at least the subject's length computes the full replacement.  The
empty pattern never occurs in this program, so that branch returns the
subject unchanged. -/
def pyReplaceFuel (fuel : Nat) (s pat rep : List Char) : List Char :=
  match fuel, s, pat with
  | _, s, [] => s
  | 0, s, _ :: _ => s
  | _, [], _ :: _ => []
  | fuel + 1, c :: rest, p :: ps =>
    if (p :: ps).isPrefixOf (c :: rest) then
      rep ++ pyReplaceFuel fuel ((c :: rest).drop (p :: ps).length) (p :: ps) rep
    else
      c :: pyReplaceFuel fuel rest (p :: ps) rep

/-- Python's `str.replace(pat, rep)` on character lists: every non-overlapping
occurrence of `pat`, scanned left to right, is replaced by `rep`. -/
def pyReplace (s pat rep : List Char) : List Char :=
  pyReplaceFuel s.length s pat rep

/-- Lift of `str.replace` to `String`. -/
def pyReplaceStr (s pat rep : String) : String :=
  ⟨pyReplace s.data pat.data rep.data⟩

/-- Python's `str.upper()` on the ASCII strings this program handles:
uppercase every character. -/
def pyUpper (s : String) : String :=
  ⟨s.data.map Char.toUpper⟩

/-- Python's `s.endswith("/")` as a predicate on the character list. -/
def endsWithSlash (s : String) : Bool :=
  s.data.getLast? = some '/'

/-- Model of `os.path.join` for the relative paths this script uses. -/
def os_path_join (a b : String) : String :=
  if a = "" then b
  else if endsWithSlash a then a ++ b
  else a ++ "/" ++ b

/-- The module-level literal `settings_file = "settings.json"` (line 12). -/
def settings_file : String := "settings.json"

/-- The parsed JSON settings object, restricted to the nine keys that
`Settings.load_from_json` reads via `data.get(key, default)`.  A field is
`none` when the key is absent from the JSON object. -/
structure JsonData where
  input_path : Option String := none
  input_file : Option String := none
  export_path : Option String := none
  output_file_suffix : Option String := none
  bake_image_width : Option Int := none
  bake_image_height : Option Int := none
  light_type : Option String := none
  light_energy : Option Int := none
  debug : Option Bool := none
deriving DecidableEq, Repr

/-- The `Settings` class: flat record with hard-coded class-level defaults. -/
structure Settings where
  input_path : String := "./src"
  input_file : String := ""
  export_path : String := "./dst"
  output_file_suffix : String := "_baked"
  bake_image_width : Int := 1024
  bake_image_height : Int := 1024
  light_type : String := "POINT"
  light_energy : Int := 1000
  debug : Bool := false
deriving DecidableEq, Repr

/-- Body of `Settings.load_from_json` after the file was found and parsed: each field
is `data.get(key, default)`; `light_type` additionally has `.upper()` applied
(line 41 of the source). -/
def Settings.load_from_json (data : JsonData) : Settings :=
  let settings : Settings := {}
  { input_path := data.input_path.getD settings.input_path
    input_file := data.input_file.getD settings.input_file
    export_path := data.export_path.getD settings.export_path
    output_file_suffix := data.output_file_suffix.getD settings.output_file_suffix
    bake_image_width := data.bake_image_width.getD settings.bake_image_width
    bake_image_height := data.bake_image_height.getD settings.bake_image_height
    light_type := pyUpper (data.light_type.getD settings.light_type)
    light_energy := data.light_energy.getD settings.light_energy
    debug := data.debug.getD settings.debug }

/-- The overlay exactly as the spec words it, for comparison with
`Settings.load_from_json`: each field equals the JSON value stored under the
field's key when present and the hard-coded default otherwise, with no other
transformation applied. -/
def specFlatOverlay (data : JsonData) : Settings :=
  let settings : Settings := {}
  { input_path := data.input_path.getD settings.input_path
    input_file := data.input_file.getD settings.input_file
    export_path := data.export_path.getD settings.export_path
    output_file_suffix := data.output_file_suffix.getD settings.output_file_suffix
    bake_image_width := data.bake_image_width.getD settings.bake_image_width
    bake_image_height := data.bake_image_height.getD settings.bake_image_height
    light_type := data.light_type.getD settings.light_type
    light_energy := data.light_energy.getD settings.light_energy
    debug := data.debug.getD settings.debug }

/-- Light data (`bpy.types.Light`): the light type string and the energy value. -/
structure LightData where
  lightType : String
  energy : Int
deriving DecidableEq, Repr

/-- A scene object (`bpy.types.Object`): identity, name, `obj.type`, optional
light data, location, selection flag.  Camera rotation and lens are float
valued and irrelevant to every claim, so only the lens (an integral literal)
is kept. -/
structure Obj where
  id : Nat
  name : String
  objType : String
  lightData : Option LightData := none
  cameraLens : Option Int := none
  location : Int × Int × Int := (0, 0, 0)
  selected : Bool := false
deriving DecidableEq, Repr

/-- Render settings (`scene.render`) touched by `debug()`. -/
structure RenderSettings where
  resolution_x : Int
  resolution_y : Int
  resolution_percentage : Int
  engine : String
  filepath : String
deriving DecidableEq, Repr

/-- The Blender scene state: `bpy.data.objects`, the active object and scene
camera (by object id), the 3D-cursor location, render settings, and a fresh-id
counter standing in for object identity allocation. -/
structure Scene where
  objects : List Obj := []
  active : Option Nat := none
  camera : Option Nat := none
  cursor : Int × Int × Int := (0, 0, 0)
  render : RenderSettings := ⟨1920, 1080, 100, "EEVEE", ""⟩
  nextId : Nat := 0
deriving DecidableEq, Repr

/-- One invocation of a host-provided operator. -/
inductive HostCall where
  | gltfImport (filepath : String)
  | gltfExport (filepath : String) (use_selection : Bool)
  | makedirs (path : String)
  | renderStill (write_still : Bool)
deriving DecidableEq, Repr

/-- The `cleanup()` function: select all, delete all objects, reset the cursor. -/
def cleanup (scene : Scene) : Scene :=
  { scene with objects := [], active := none, camera := none, cursor := (0, 0, 0) }

/-- The `read_args()` function: if `"--"` occurs in `argv`, keep the tokens after the first
occurrence; when exactly one token remains, return it, else return `None`. -/
def read_args (argv : List String) : Option String :=
  if "--" ∈ argv then
    match (argv.dropWhile (· ≠ "--")).tail with
    | [a] => some a
    | _ => none
  else none

/-- The state of a candidate settings file: absent (`FileNotFoundError`),
present but not valid JSON (`json.load` raises), or valid JSON parsing to
`data`. -/
inductive FileState where
  | missing
  | invalid
  | valid (data : JsonData)
deriving DecidableEq, Repr

/-- The `init_from_settings(file_path)` function: return the parsed settings on success;
the `try/except` turns any raise (missing file, bad JSON) into `None`. -/
def init_from_settings (fs : String → FileState) (file_path : String) :
    Option Settings :=
  match fs file_path with
  | FileState.valid data => some (Settings.load_from_json data)
  | FileState.missing => none
  | FileState.invalid => none

/-- The `input_path` value with a single trailing `"/"` stripped (lines 76-77). -/
def stripTrailingSlash (s : String) : String :=
  if endsWithSlash s then ⟨s.data.dropLast⟩ else s

/-- The `import_mesh(settings)` function: build the import path, invoke the glTF import
operator once, and pick the first newly created object of type `'MESH'`.
`imported` is the host importer's effect: the objects present after the
operator but not before.  (`os.path.abspath` depends on the process working
directory and is not modelled; no claim concerns it.) -/
def import_mesh (settings : Settings) (imported : List Obj) (scene : Scene) :
    Scene × List HostCall × Option Obj :=
  let file_name := stripTrailingSlash settings.input_path
  let file_name := os_path_join file_name settings.input_file
  let scene := { scene with objects := scene.objects ++ imported }
  let mesh_objects := imported.filter (fun o => o.objType = "MESH")
  (scene, [HostCall.gltfImport file_name], mesh_objects.head?)

/-- The export file name: `settings.input_file.replace(".glb",
settings.output_file_suffix + ".glb")` (line 98). -/
def output_filename (settings : Settings) : String :=
  pyReplaceStr settings.input_file ".glb" (settings.output_file_suffix ++ ".glb")

/-- Effect of `bpy.ops.object.select_all` with the deselect action. -/
def deselect_all (scene : Scene) : Scene :=
  { scene with objects := scene.objects.map (fun o => { o with selected := false }) }

/-- The `export_mesh(mesh, settings)` function: compute the output path, `os.makedirs`,
deselect everything, then — only for a valid mesh — select and activate it and
invoke the glTF export operator with `use_selection=True`. -/
def export_mesh (mesh : Option Obj) (settings : Settings) (scene : Scene) :
    Scene × List HostCall :=
  let export_filepath := os_path_join settings.export_path (output_filename settings)
  let scene := deselect_all scene
  match mesh with
  | none => (scene, [HostCall.makedirs settings.export_path])
  | some m =>
    if m.objType = "MESH" then
      let scene := { scene with
        objects := scene.objects.map
          (fun o => if o.id = m.id then { o with selected := true } else o),
        active := some m.id }
      (scene, [HostCall.makedirs settings.export_path,
               HostCall.gltfExport export_filepath true])
    else (scene, [HostCall.makedirs settings.export_path])

/-- The `setup_light(settings)` function: create light data from the settings, create an
object carrying it, link it into the collection, then set its location to
`(5, 5, 5)` (the location assignment mutates the linked object by
reference, modelled by an id-directed update). -/
def setup_light (settings : Settings) (scene : Scene) : Scene :=
  let light_data : LightData :=
    { lightType := settings.light_type, energy := settings.light_energy }
  let light_object : Obj :=
    { id := scene.nextId, name := "Light", objType := "LIGHT",
      lightData := some light_data }
  let scene := { scene with
    objects := scene.objects ++ [light_object], nextId := scene.nextId + 1 }
  { scene with
    objects := scene.objects.map
      (fun o => if o.id = light_object.id then { o with location := (5, 5, 5) } else o) }

/-- The camera object that `debug()` creates. -/
def debugCamera (id : Nat) : Obj :=
  { id := id, name := "Camera", objType := "CAMERA",
    cameraLens := some 35, location := (-5, -5, 5), selected := true }

/-- The `debug()` function: add a camera at `(-5, -5.0, 5)` with lens 35, make it the scene
camera, set the render settings to 256x256 CYCLES with file path
`debug/out.png`, and invoke the still-image renderer. -/
def debugRun (scene : Scene) : Scene × List HostCall :=
  let cam := debugCamera scene.nextId
  let scene := { scene with
    objects := scene.objects ++ [cam],
    active := some cam.id,
    camera := some cam.id,
    render := ⟨256, 256, 100, "CYCLES", "debug/out.png"⟩,
    nextId := scene.nextId + 1 }
  (scene, [HostCall.renderStill true])

/-- One top-level operation of the `__main__` block, in execution order. -/
inductive Event where
  | cleanupScene
  | loadSettings (path : String)
  | importMesh
  | setupLight
  | exportMesh
  | debugRender
deriving DecidableEq, Repr

/-- How the `__main__` block ends: normally, or with the `AttributeError`
raised by evaluating `settings.debug` when `settings` is `None` (line 157). -/
inductive Outcome where
  | completed
  | noneAttributeError
deriving DecidableEq, Repr

/-- The `__main__` block (lines 148-158) as a trace of top-level operations
plus an outcome: `cleanup()`; `read_args()` (result bound but never used);
`init_from_settings(settings_file)` — note the hard-coded global, not the
command-line path; on success import, light, export in that order; finally
`if settings.debug: debug()`, which on `settings = None` is an attribute
access on `None`. -/
def mainBlock (fs : String → FileState) (argv : List String) :
    List Event × Outcome :=
  let _argv := read_args argv
  let settings := init_from_settings fs settings_file
  match settings with
  | some s =>
    ([Event.cleanupScene, Event.loadSettings settings_file,
      Event.importMesh, Event.setupLight, Event.exportMesh]
      ++ (if s.debug then [Event.debugRender] else []),
     Outcome.completed)
  | none =>
    ([Event.cleanupScene, Event.loadSettings settings_file],
     Outcome.noneAttributeError)

/-! ### Helper lemmas -/

/-- Scanning a list in which the (non-empty) pattern never occurs as a
contiguous sublist replaces nothing, whatever the fuel. -/
theorem pyReplaceFuel_eq_self_of_no_occurrence (fuel : Nat) (s : List Char)
    (p : Char) (ps rep : List Char) (h : ¬ (p :: ps) <:+: s) :
    pyReplaceFuel fuel s (p :: ps) rep = s := by
  induction fuel generalizing s with
  | zero => cases s <;> rfl
  | succ fuel ih =>
    cases s with
    | nil => rfl
    | cons c rest =>
      have hpre : (p :: ps).isPrefixOf (c :: rest) = false := by
        refine Bool.eq_false_iff.mpr fun hp => ?_
        exact h (List.IsPrefix.isInfix ( Iff.mp List.isPrefixOf_iff_prefix hp))
      have hrest : ¬ (p :: ps) <:+: rest :=
        fun hi => h (hi.trans (List.suffix_cons c rest).isInfix)
      simp only [pyReplaceFuel, hpre, Bool.false_eq_true, if_false, ih rest hrest]

/-- Scanning a list in which the (non-empty) pattern never occurs as a
contiguous sublist replaces nothing. -/
theorem pyReplace_eq_self_of_no_occurrence (s : List Char) (p : Char)
    (ps rep : List Char) (h : ¬ (p :: ps) <:+: s) :
    pyReplace s (p :: ps) rep = s :=
  pyReplaceFuel_eq_self_of_no_occurrence s.length s p ps rep h

/-- An id-directed update leaves a list unchanged when no element carries the
targeted id. -/
theorem map_ite_id_of_ne (l : List Obj) (n : Nat) (f : Obj → Obj)
    (h : ∀ o ∈ l, o.id ≠ n) :
    l.map (fun o => if o.id = n then f o else o) = l := by
  induction l with
  | nil => rfl
  | cons a t ih =>
    simp only [List.map_cons, if_neg (h a (List.mem_cons_self a t)),
      ih (fun o ho => h o (List.mem_cons_of_mem a ho))]

/-- On an empty subject the scan returns the empty list, whatever the fuel. -/
theorem pyReplaceFuel_nil (fuel : Nat) (p : Char) (ps rep : List Char) :
    pyReplaceFuel fuel [] (p :: ps) rep = [] := by
  cases fuel <;> rfl

/-- Scanning `pre ++ ".glb"` where `".glb"` does not occur in `pre` replaces
exactly the terminal occurrence. -/
theorem pyReplaceFuel_append_glb (pre rep : List Char) (fuel : Nat)
    (hfuel : pre.length + 4 ≤ fuel)
    (h : ¬ ['.', 'g', 'l', 'b'] <:+: pre) :
    pyReplaceFuel fuel (pre ++ ['.', 'g', 'l', 'b']) ['.', 'g', 'l', 'b'] rep
      = pre ++ rep := by
  induction pre generalizing fuel with
  | nil =>
    obtain ⟨f, rfl⟩ : ∃ f, fuel = f + 1 := ⟨fuel - 1, by omega⟩
    show rep ++ pyReplaceFuel f [] ['.', 'g', 'l', 'b'] rep = [] ++ rep
    rw [pyReplaceFuel_nil]
    simp
  | cons c pre' ih =>
    obtain ⟨f, rfl⟩ : ∃ f, fuel = f + 1 := ⟨fuel - 1, by omega⟩
    have hrest : ¬ ['.', 'g', 'l', 'b'] <:+: pre' :=
      fun hi => h (hi.trans (List.suffix_cons c pre').isInfix)
    have hfe : pre'.length + 4 ≤ f := by
      simp only [List.length_cons] at hfuel
      omega
    have hpre : (['.', 'g', 'l', 'b'] : List Char).isPrefixOf
        (c :: (pre' ++ ['.', 'g', 'l', 'b'])) = false := by
      refine Bool.eq_false_iff.mpr fun hp => ?_
      by_cases hl : 3 ≤ pre'.length
      · have hp' : (['.', 'g', 'l', 'b'] : List Char)
            <+: c :: (pre' ++ ['.', 'g', 'l', 'b']) :=
          Iff.mp List.isPrefixOf_iff_prefix hp
        obtain ⟨t, ht⟩ := hp'
        have ht4 : (['.', 'g', 'l', 'b'] : List Char) = (c :: pre').take 4 := by
          have h1 : ((['.', 'g', 'l', 'b'] : List Char) ++ t).take 4
              = ['.', 'g', 'l', 'b'] := List.take_left' rfl
          have h2 : ((c :: pre') ++ ['.', 'g', 'l', 'b']).take 4
              = (c :: pre').take 4 := by
            rw [List.take_append_eq_append_take,
              Nat.sub_eq_zero_of_le (by simp; omega), List.take_zero,
              List.append_nil]
          rw [show c :: (pre' ++ ['.', 'g', 'l', 'b'])
              = (c :: pre') ++ ['.', 'g', 'l', 'b'] from rfl] at ht
          rw [← h1, ht, h2]
        exact h (ht4 ▸ List.take_prefix 4 (c :: pre')).isInfix
      · rcases pre' with _ | ⟨a, _ | ⟨b, _ | ⟨d, rest⟩⟩⟩
        · simp [List.isPrefixOf] at hp
        · simp [List.isPrefixOf] at hp
        · simp [List.isPrefixOf] at hp
        · simp at hl
    rw [List.cons_append, pyReplaceFuel, hpre]
    simp only [Bool.false_eq_true, if_false, ih f hfe hrest]
    rfl

/-- Scanning `pre ++ ".glb"` where `".glb"` does not occur in `pre` replaces
exactly the terminal occurrence (fuel instantiated to the length). -/
theorem pyReplace_append_glb (pre rep : List Char)
    (h : ¬ ['.', 'g', 'l', 'b'] <:+: pre) :
    pyReplace (pre ++ ['.', 'g', 'l', 'b']) ['.', 'g', 'l', 'b'] rep
      = pre ++ rep := by
  unfold pyReplace
  exact pyReplaceFuel_append_glb pre rep _ (by simp) h

/-- After a deselect-all, every object in the scene is unselected. -/
theorem deselect_all_unselected (scene : Scene) :
    ∀ o ∈ (deselect_all scene).objects, o.selected = false := by
  intro o ho
  simp only [deselect_all, List.mem_map] at ho
  obtain ⟨o₀, -, rfl⟩ := ho
  rfl

/-! ### Claim theorems -/

/-- C1: the claim says the settings record loaded by the main block is parsed
from the path returned by `read_args`.  The code instead loads the hard-coded
module literal `settings_file = "settings.json"`: with argument vector
`["blender", "--", "custom.json"]`, `read_args` returns `"custom.json"` but
the main block's load event names `"settings.json"` for every filesystem. -/
theorem main_ignores_cli_settings_path :
    read_args ["blender", "--", "custom.json"] = some "custom.json" ∧
    (∀ fs : String → FileState,
      Event.loadSettings "settings.json"
        ∈ (mainBlock fs ["blender", "--", "custom.json"]).1 ∧
      Event.loadSettings "custom.json"
        ∉ (mainBlock fs ["blender", "--", "custom.json"]).1) := by
  refine ⟨by decide, fun fs => ?_⟩
  unfold mainBlock
  cases init_from_settings fs settings_file with
  | none => exact ⟨by decide, by decide⟩
  | some s =>
    cases hd : s.debug <;> simp [hd, settings_file]

/-- C2 counterexample: `Settings.load_from_json` does not return the JSON
value stored under `"light_type"` unchanged — `.upper()` is applied — so the
loader is not the transformation-free overlay the claim describes. -/
theorem load_from_json_upcases_light_type :
    (Settings.load_from_json { light_type := some "sun" }).light_type ≠ "sun" ∧
    (Settings.load_from_json { light_type := some "sun" }).light_type = "SUN" ∧
    Settings.load_from_json { light_type := some "sun" }
      ≠ specFlatOverlay { light_type := some "sun" } := by
  refine ⟨by decide, by decide, ?_⟩
  intro h
  have := congrArg Settings.light_type h
  revert this
  decide

/-- C2 amended: `Settings.load_from_json` equals the spec's flat key-overlay
onto the hard-coded defaults on every field except `light_type`, whose
overlaid value is additionally uppercased. -/
theorem load_from_json_eq_overlay_with_upper (data : JsonData) :
    Settings.load_from_json data
      = { specFlatOverlay data with
          light_type := pyUpper ((specFlatOverlay data).light_type) } := rfl

/-- C3 counterexample: in a run whose settings load successfully with the
debug flag set, the debug render does not precede the export — `exportMesh`
occurs at an earlier trace index than `debugRender`. -/
theorem debug_render_not_before_export :
    Event.debugRender
      ∈ (mainBlock (fun _ => FileState.valid { debug := some true }) []).1 ∧
    ¬ ((mainBlock (fun _ => FileState.valid { debug := some true }) []).1.indexOf
          Event.debugRender
        < (mainBlock (fun _ => FileState.valid { debug := some true }) []).1.indexOf
          Event.exportMesh) := by decide

/-- C3 amended: when settings load successfully and the debug flag is set,
the main block's operations run in the order: clear the scene, load the
settings file, import the mesh, attach the light, export the lit mesh, and
then render the debug preview (the debug render comes after the export). -/
theorem main_order_export_then_debug (fs : String → FileState)
    (argv : List String) (data : JsonData)
    (hfs : fs settings_file = FileState.valid data)
    (hdbg : (Settings.load_from_json data).debug = true) :
    (mainBlock fs argv).1
      = [Event.cleanupScene, Event.loadSettings settings_file,
         Event.importMesh, Event.setupLight, Event.exportMesh,
         Event.debugRender] := by
  unfold mainBlock init_from_settings
  rw [hfs]
  simp [hdbg]

/-- Witness for C3's amended theorem at a concrete filesystem whose settings
file is valid JSON setting `debug` to `true`. -/
theorem main_order_export_then_debug_witness :
    (mainBlock (fun _ => FileState.valid { debug := some true }) []).1
      = [Event.cleanupScene, Event.loadSettings settings_file,
         Event.importMesh, Event.setupLight, Event.exportMesh,
         Event.debugRender] :=
  main_order_export_then_debug (fun _ => FileState.valid { debug := some true })
    [] { debug := some true } rfl (by decide)

/-- C4: `init_from_settings` returns the parsed settings record when the file
exists and parses, returns `None` whenever `Settings.load_from_json` raises
(missing file or invalid JSON), and a `None` result makes the main block skip
import, light setup, and export. -/
theorem init_failure_guards_pipeline (fs : String → FileState)
    (argv : List String) :
    (∀ path data, fs path = FileState.valid data →
        init_from_settings fs path = some (Settings.load_from_json data)) ∧
    (∀ path, fs path = FileState.missing ∨ fs path = FileState.invalid →
        init_from_settings fs path = none) ∧
    (init_from_settings fs settings_file = none →
        Event.importMesh ∉ (mainBlock fs argv).1 ∧
        Event.setupLight ∉ (mainBlock fs argv).1 ∧
        Event.exportMesh ∉ (mainBlock fs argv).1) := by
  refine ⟨fun path data h => ?_, fun path h => ?_, fun h => ?_⟩
  · unfold init_from_settings
    rw [h]
  · unfold init_from_settings
    rcases h with h | h <;> rw [h]
  · unfold mainBlock
    rw [h]
    exact ⟨by decide, by decide, by decide⟩

/-- Witness for C4: a filesystem with a missing settings file makes
`init_from_settings` return `none` and keeps import out of the trace, and a
valid one returns the parsed record. -/
theorem init_failure_guards_pipeline_witness :
    init_from_settings (fun _ => FileState.missing) settings_file = none ∧
    Event.importMesh ∉ (mainBlock (fun _ => FileState.missing) []).1 ∧
    init_from_settings (fun _ => FileState.valid { debug := some true })
        settings_file
      = some (Settings.load_from_json { debug := some true }) := by
  have hm := init_failure_guards_pipeline (fun _ => FileState.missing) []
  have hv :=
    init_failure_guards_pipeline (fun _ => FileState.valid { debug := some true }) []
  have h1 := hm.2.1 settings_file (Or.inl rfl)
  exact ⟨h1, (hm.2.2 h1).1, hv.1 settings_file { debug := some true } rfl⟩

/-- C9: when the settings file is missing or malformed, `init_from_settings`
returns `None`, yet the main block still evaluates `settings.debug` on that
`None`, ending in an attribute access on `None` rather than a normal
termination after the printed error. -/
theorem none_settings_attribute_error (fs : String → FileState)
    (argv : List String)
    (h : fs settings_file = FileState.missing ∨
         fs settings_file = FileState.invalid) :
    init_from_settings fs settings_file = none ∧
    (mainBlock fs argv).2 = Outcome.noneAttributeError := by
  have hnone : init_from_settings fs settings_file = none := by
    unfold init_from_settings
    rcases h with h | h <;> rw [h]
  refine ⟨hnone, ?_⟩
  unfold mainBlock
  rw [hnone]

/-- Witness for C9 at a filesystem with no settings file. -/
theorem none_settings_attribute_error_witness :
    init_from_settings (fun _ => FileState.missing) settings_file = none ∧
    (mainBlock (fun _ => FileState.missing) []).2 = Outcome.noneAttributeError :=
  none_settings_attribute_error (fun _ => FileState.missing) [] (Or.inl rfl)

/-- C5: `import_mesh` issues exactly one glTF import operator call and
returns the first newly created object of type `'MESH'` — `none` exactly when
no newly created object is a mesh — while the scene gains exactly the newly
created objects. -/
theorem import_mesh_selects_first_mesh (settings : Settings)
    (imported : List Obj) (scene : Scene) :
    (import_mesh settings imported scene).2.1
      = [HostCall.gltfImport
          (os_path_join (stripTrailingSlash settings.input_path)
            settings.input_file)] ∧
    (import_mesh settings imported scene).2.2
      = (imported.filter (fun o => o.objType = "MESH")).head? ∧
    ((import_mesh settings imported scene).2.2 = none ↔
      ∀ o ∈ imported, o.objType ≠ "MESH") ∧
    (∀ m, (import_mesh settings imported scene).2.2 = some m →
      m ∈ imported ∧ m.objType = "MESH") ∧
    (import_mesh settings imported scene).1.objects
      = scene.objects ++ imported := by
  refine ⟨rfl, rfl, ?_, ?_, rfl⟩
  · simp [import_mesh, List.head?_eq_none_iff, List.filter_eq_nil_iff]
  · intro m hm
    have hmem : m ∈ imported.filter (fun o => decide (o.objType = "MESH")) := by
      rcases hf : imported.filter (fun o => decide (o.objType = "MESH")) with
        _ | ⟨a, t⟩
      · rw [show (import_mesh settings imported scene).2.2
              = (imported.filter (fun o => decide (o.objType = "MESH"))).head?
            from rfl, hf] at hm
        cases hm
      · rw [show (import_mesh settings imported scene).2.2
              = (imported.filter (fun o => decide (o.objType = "MESH"))).head?
            from rfl, hf] at hm
        simp only [List.head?_cons, Option.some.injEq] at hm
        rw [hf, hm]
        exact List.mem_cons_self m t
    have := List.mem_filter.mp hmem
    simpa using this

/-- Witness for C5 at a concrete import result: one camera then one mesh
yields the mesh object, and an import creating no mesh yields `none`. -/
theorem import_mesh_selects_first_mesh_witness :
    ((import_mesh {} [{ id := 0, name := "M", objType := "MESH" }] {}).2.2
        = some { id := 0, name := "M", objType := "MESH" } →
      ({ id := 0, name := "M", objType := "MESH" } : Obj)
          ∈ [({ id := 0, name := "M", objType := "MESH" } : Obj)] ∧
        ({ id := 0, name := "M", objType := "MESH" } : Obj).objType = "MESH") ∧
    ((import_mesh {} [{ id := 0, name := "C", objType := "CAMERA" }] {}).2.2
      = none) := by
  constructor
  · exact (import_mesh_selects_first_mesh {}
      [{ id := 0, name := "M", objType := "MESH" }] {}).2.2.2.1
      { id := 0, name := "M", objType := "MESH" }
  · exact (import_mesh_selects_first_mesh {}
      [{ id := 0, name := "C", objType := "CAMERA" }] {}).2.2.1.mpr (by decide)

/-- C6: `export_mesh` on a valid mesh deselects everything, then selects and
activates only that object and issues exactly one glTF export call with
`use_selection` to `export_path` joined with `input_file` after the `".glb"`
replacement; on `None` or a non-mesh it issues no export call and leaves the
scene exactly as the deselect-all left it. -/
theorem export_mesh_selected_only (mo : Option Obj) (settings : Settings)
    (scene : Scene) :
    (∀ m, mo = some m → m.objType = "MESH" →
       (export_mesh mo settings scene).2
         = [HostCall.makedirs settings.export_path,
            HostCall.gltfExport
              (os_path_join settings.export_path (output_filename settings))
              true] ∧
       (export_mesh mo settings scene).1.active = some m.id ∧
       ∀ o ∈ (export_mesh mo settings scene).1.objects,
         (o.selected = true ↔ o.id = m.id)) ∧
    ((∀ m, mo = some m → m.objType ≠ "MESH") →
       (export_mesh mo settings scene).1 = deselect_all scene ∧
       (∀ o ∈ (export_mesh mo settings scene).1.objects, o.selected = false) ∧
       ∀ p u, HostCall.gltfExport p u ∉ (export_mesh mo settings scene).2) := by
  constructor
  · rintro m rfl hm
    refine ⟨by simp [export_mesh, hm], by simp [export_mesh, hm], ?_⟩
    intro o ho
    simp only [export_mesh, hm, if_pos, deselect_all, List.map_map,
      List.mem_map, Function.comp] at ho
    obtain ⟨o₀, -, rfl⟩ := ho
    by_cases hid : o₀.id = m.id <;> simp [hid]
  · intro hinv
    have hscene : (export_mesh mo settings scene).1 = deselect_all scene := by
      rcases mo with _ | m
      · rfl
      · have hm : m.objType ≠ "MESH" := hinv m rfl
        simp [export_mesh, hm]
    refine ⟨hscene, fun o ho => ?_, fun p u hmem => ?_⟩
    · rw [hscene] at ho
      exact deselect_all_unselected scene o ho
    · have hcalls : (export_mesh mo settings scene).2
          = [HostCall.makedirs settings.export_path] := by
        rcases mo with _ | m
        · rfl
        · have hm : m.objType ≠ "MESH" := hinv m rfl
          simp [export_mesh, hm]
      rw [hcalls] at hmem
      simp at hmem

/-- Witness for C6 at a concrete scene holding one mesh and one camera:
exporting the mesh issues the export call on `./dst/model_baked.glb`, and
exporting `None` issues no export call. -/
theorem export_mesh_selected_only_witness :
    (export_mesh (some { id := 0, name := "M", objType := "MESH" })
        { input_file := "model.glb" }
        { objects := [{ id := 0, name := "M", objType := "MESH" },
                      { id := 1, name := "C", objType := "CAMERA" }] }).2
      = [HostCall.makedirs "./dst",
         HostCall.gltfExport "./dst/model_baked.glb" true] ∧
    HostCall.gltfExport "./dst/model_baked.glb" true
      ∉ (export_mesh none { input_file := "model.glb" } {}).2 := by
  constructor
  · exact (((export_mesh_selected_only
      (some { id := 0, name := "M", objType := "MESH" })
      { input_file := "model.glb" }
      { objects := [{ id := 0, name := "M", objType := "MESH" },
                    { id := 1, name := "C", objType := "CAMERA" }] }).1
      { id := 0, name := "M", objType := "MESH" } rfl rfl).1).trans (by decide)
  · exact ((export_mesh_selected_only none { input_file := "model.glb" } {}).2
      (fun m hm => by cases hm)).2.2 "./dst/model_baked.glb" true

/-- C7: `setup_light` appends exactly one new object to the scene — a light
whose light type and energy come from the settings and whose location is
`(5, 5, 5)` — and leaves every pre-existing object unchanged. -/
theorem setup_light_adds_one_light (settings : Settings) (scene : Scene)
    (hfresh : ∀ o ∈ scene.objects, o.id ≠ scene.nextId) :
    (setup_light settings scene).objects
      = scene.objects ++
        [{ id := scene.nextId, name := "Light", objType := "LIGHT",
           lightData := some ⟨settings.light_type, settings.light_energy⟩,
           cameraLens := none, location := (5, 5, 5), selected := false }] := by
  unfold setup_light
  simp only [List.map_append, map_ite_id_of_ne scene.objects scene.nextId _ hfresh,
    List.map_cons, List.map_nil]
  simp

/-- Witness for C7 on a scene already holding one (fresh-id-respecting)
object. -/
theorem setup_light_adds_one_light_witness :
    (setup_light { light_type := "SUN", light_energy := 7 }
        { objects := [{ id := 0, name := "M", objType := "MESH" }],
          nextId := 1 }).objects
      = [{ id := 0, name := "M", objType := "MESH" },
         { id := 1, name := "Light", objType := "LIGHT",
           lightData := some ⟨"SUN", 7⟩, cameraLens := none,
           location := (5, 5, 5), selected := false }] :=
  setup_light_adds_one_light { light_type := "SUN", light_energy := 7 }
    { objects := [{ id := 0, name := "M", objType := "MESH" }], nextId := 1 }
    (by simp)

/-- C8: after a successful settings load the debug render appears in the main
trace exactly when the loaded `debug` field is true, and the debug routine
adds one camera, makes it the scene camera, sets the renderer to 256x256 with
file path `debug/out.png`, and invokes the still-image renderer. -/
theorem debug_render_iff_flag (fs : String → FileState) (argv : List String)
    (data : JsonData) (hfs : fs settings_file = FileState.valid data) :
    (Event.debugRender ∈ (mainBlock fs argv).1 ↔
      (Settings.load_from_json data).debug = true) ∧
    ∀ scene : Scene,
      (debugRun scene).2 = [HostCall.renderStill true] ∧
      (debugRun scene).1.render = ⟨256, 256, 100, "CYCLES", "debug/out.png"⟩ ∧
      (debugRun scene).1.objects = scene.objects ++ [debugCamera scene.nextId] ∧
      (debugRun scene).1.camera = some scene.nextId ∧
      (debugCamera scene.nextId).objType = "CAMERA" := by
  constructor
  · unfold mainBlock init_from_settings
    rw [hfs]
    cases hd : (Settings.load_from_json data).debug <;> simp [hd]
  · exact fun scene => ⟨rfl, rfl, rfl, rfl, rfl⟩

/-- Witness for C8: with a valid settings file setting `debug` to `true` the
trace contains the debug render; with `debug` absent (default `false`) it
does not. -/
theorem debug_render_iff_flag_witness :
    Event.debugRender
      ∈ (mainBlock (fun _ => FileState.valid { debug := some true }) []).1 ∧
    Event.debugRender ∉ (mainBlock (fun _ => FileState.valid {}) []).1 := by
  constructor
  · exact (debug_render_iff_flag (fun _ => FileState.valid { debug := some true })
      [] { debug := some true } rfl).1.mpr (by decide)
  · intro hmem
    have := (debug_render_iff_flag (fun _ => FileState.valid {}) [] {} rfl).1.mp hmem
    revert this
    decide

/-- C10: the export file name is `input_file` with `".glb"` occurrences
replaced by `output_file_suffix + ".glb"`: when `".glb"` does not occur as a
substring the name is returned unchanged with no suffix appended, and when
`input_file` is `base ++ ".glb"` with no `".glb"` inside `base` the name is
`base ++ output_file_suffix ++ ".glb"`. -/
theorem output_filename_pure_replacement (settings : Settings) :
    (¬ ['.', 'g', 'l', 'b'] <:+: settings.input_file.data →
      output_filename settings = settings.input_file) ∧
    (∀ base : List Char,
      settings.input_file.data = base ++ ['.', 'g', 'l', 'b'] →
      ¬ ['.', 'g', 'l', 'b'] <:+: base →
      (output_filename settings).data
        = base ++ settings.output_file_suffix.data ++ ['.', 'g', 'l', 'b']) := by
  constructor
  · intro h
    have hrepl := pyReplace_eq_self_of_no_occurrence settings.input_file.data
      '.' ['g', 'l', 'b']
      (String.data (settings.output_file_suffix ++ ".glb")) h
    exact congrArg String.mk hrepl
  · intro base hbase h
    show pyReplace settings.input_file.data ['.', 'g', 'l', 'b']
        (String.data (settings.output_file_suffix ++ ".glb"))
      = base ++ settings.output_file_suffix.data ++ ['.', 'g', 'l', 'b']
    rw [hbase]
    rw [show (settings.output_file_suffix ++ (".glb" : String)).data
        = settings.output_file_suffix.data ++ ['.', 'g', 'l', 'b'] from
      String.data_append settings.output_file_suffix ".glb"]
    rw [pyReplace_append_glb base _ h, List.append_assoc]

/-- Witness for C10: `"model.txt"` has no `".glb"` and is exported unchanged;
`"model.glb"` with the default suffix becomes `"model" ++ "_baked" ++
".glb"`. -/
theorem output_filename_pure_replacement_witness :
    output_filename { input_file := "model.txt" } = "model.txt" ∧
    (output_filename { input_file := "model.glb" }).data
      = "model".data ++ "_baked".data ++ ['.', 'g', 'l', 'b'] := by
  constructor
  · exact (output_filename_pure_replacement { input_file := "model.txt" }).1
      (by decide)
  · exact (output_filename_pure_replacement { input_file := "model.glb" }).2
      "model".data (by decide) (by decide)

end BakeLight
